import Mathlib

/-!
Verification of the GitHub Enterprise health-check core (Google SecOps health
checks): a shallow embedding of the HTTP query executors, the paginated
detection collector, the search facades and the two-stage validation
orchestrator, together with theorems settling the specified properties.

The embedding models the authenticated HTTP session as a function from the
attempt index to the response it returns, and records the observable side
effects (HTTP requests, diagnostic prints, sleeps, log records, facade
invocations) as an explicit trace list.
-/

deriving instance DecidableEq for Except

namespace HealthChecks

/-- Observable side effects of the health-check core: an HTTP request (tagged
with its attempt index within one executor call), a diagnostic print of a raw
response body, a blocking sleep of the given number of seconds, an
informational log record carrying an event count, and one marker per facade
invocation. -/
inductive Effect where
  | request (attempt : Nat)
  | print (s : String)
  | sleep (seconds : Nat)
  | logCount (n : Nat)
  | udmCall
  | detectionsCall
  | alertsCall
  deriving DecidableEq, Repr

/-- Number of sleep effects of exactly 60 seconds in a trace. -/
def numSleeps (effs : List Effect) : Nat :=
  (effs.filter fun e => e = Effect.sleep 60).length

/-- Number of UDM-search facade invocations recorded in a trace. -/
def numUdmCalls (effs : List Effect) : Nat :=
  (effs.filter fun e => e = Effect.udmCall).length

/-- Number of HTTP requests recorded in a trace. -/
def numRequests (effs : List Effect) : Nat :=
  (effs.filter fun e => match e with | Effect.request _ => true | _ => false).length

/-- An HTTP response as exposed by the authenticated session: a status code,
the raw text body, and the JSON-decoded body. -/
structure HttpResp (β : Type) where
  status : Nat
  text : String
  body : β
  deriving DecidableEq, Repr

/-- Error taxonomy of the health-check core. `httpError` models
`requests.exceptions.HTTPError` raised by `raise_for_status` (carrying the
status code); `dataAbsence` models the `raise Exception(...)` fatal
absence-of-data failures (carrying the message context); `keyError` models a
Python `KeyError` on a missing dictionary key; `stillRunning` is a modelling
artifact marking that the unbounded pagination loop requested a page beyond
the finite response sequence supplied to the model. -/
inductive CheckErr where
  | httpError (status : Nat)
  | dataAbsence (msg : String)
  | keyError (key : String)
  | stillRunning
  deriving DecidableEq, Repr

namespace UdmSearch

/-- Fixed message printed by the rate-limit-aware executor before sleeping. -/
def rateMsg : String := "API rate limit exceeded. Sleeping for 60s before retrying"

/-- Loop body of `udm_search` in
`health-check-github-validate-log-ingestion/secops_api/search/udm_search.py`:
`for _ in range(max_retries + 1)` issues a request; a non-429 status breaks
out of the loop at once; a 429 status prints the body and the rate-limit
message, sleeps 60 seconds, and continues while iterations remain.
`remaining` counts the loop iterations still available after the current one,
so the loop over `range(max_retries + 1)` starts with
`remaining = max_retries`. Returns the final response and the effect trace. -/
def udmSearchGo (session : Nat → HttpResp β) (i : Nat) :
    Nat → HttpResp β × List Effect
  | 0 =>
      let r := session i
      if r.status ≠ 429 then (r, [Effect.request i])
      else
        (r, [Effect.request i, Effect.print r.text, Effect.print rateMsg,
             Effect.sleep 60])
  | remaining + 1 =>
      let r := session i
      if r.status ≠ 429 then (r, [Effect.request i])
      else
        let step := [Effect.request i, Effect.print r.text,
                     Effect.print rateMsg, Effect.sleep 60]
        let rest := udmSearchGo session (i + 1) remaining
        (rest.1, step ++ rest.2)

/-- The rate-limit-aware UDM search executor (`udm_search` in
`udm_search.py`): run the retry loop, then `response.raise_for_status()`
(raises an HTTP error exactly when the final status is at least 400), then
return the decoded body. -/
def udm_search (session : Nat → HttpResp β) (max_retries : Nat := 3) :
    Except CheckErr β × List Effect :=
  let out := udmSearchGo session 0 max_retries
  (if 400 ≤ out.1.status then Except.error (CheckErr.httpError out.1.status)
   else Except.ok out.1.body, out.2)

end UdmSearch

namespace UdmSearchLegacy

/-- The legacy UDM search executor (`udm_search` in `udm_search_legacy.py`):
one request, no retry; on a status of at least 400 it prints the raw body and
raises via `raise_for_status`; otherwise it returns the decoded body. -/
def udm_search (resp : HttpResp β) : Except CheckErr β × List Effect :=
  if 400 ≤ resp.status then
    (Except.error (CheckErr.httpError resp.status),
     [Effect.request 0, Effect.print resp.text])
  else
    (Except.ok resp.body, [Effect.request 0])

end UdmSearchLegacy

/-- A parameter value of an outgoing request: the source dictionaries mix
string-valued and integer-valued parameters. -/
inductive PVal where
  | str (v : String)
  | int (v : Int)
  deriving DecidableEq, Repr

/-- Modelled from the spec: the authenticated session (an external
collaborator, spec section 6) encodes a parameter mapping into the outgoing
request; keys whose value is `None`/absent are omitted from the request, not
sent as empty strings. The facades under `src/` only build the mapping; this
function is the session-side encoding they rely on. -/
def effectiveParams (ps : List (String × Option PVal)) : List (String × PVal) :=
  ps.filterMap fun kv => kv.2.map fun v => (kv.1, v)

namespace UdmSearch

/-- The parameter mapping built by `udm_search` in `udm_search.py` (the
legacy variant builds the identical mapping): `query`,
`time_range.start_time` and `time_range.end_time` are always present, `limit`
defaults to `None`. -/
def udm_search_params (query start_time end_time : String)
    (limit : Option Int) : List (String × Option PVal) :=
  [("query", some (PVal.str query)),
   ("time_range.start_time", some (PVal.str start_time)),
   ("time_range.end_time", some (PVal.str end_time)),
   ("limit", limit.map PVal.int)]

end UdmSearch

namespace SearchDetections

/-- The JSON body returned by the `legacySearchDetections` endpoint, as
consumed by `search_detections`: `response_json.get("detections")` and
`response_json.get("nextPageToken")`, each `None` when the key is absent. -/
structure DetResp (α : Type) where
  status : Nat
  text : String
  detections : Option (List α)
  nextPageToken : Option String
  deriving DecidableEq, Repr

/-- The parameter mapping built by `search_detections` in
`search_detections.py`: `rule_id` is always present, all other parameters
default to `None` and are passed through as given. -/
def search_detections_params (rule_id : String)
    (alert_state start_time end_time list_basis : Option String)
    (page_size : Option Int) (page_token : Option String) :
    List (String × Option PVal) :=
  [("rule_id", some (PVal.str rule_id)),
   ("alert_state", alert_state.map PVal.str),
   ("start_time", start_time.map PVal.str),
   ("end_time", end_time.map PVal.str),
   ("list_basis", list_basis.map PVal.str),
   ("page_size", page_size.map PVal.int),
   ("page_token", page_token.map PVal.str)]

/-- The detections search facade (`search_detections` in
`search_detections.py`): exactly one request, no retry and no sleep; on a
status of at least 400 it prints the raw body and raises via
`raise_for_status`; otherwise it returns the pair
`(response_json.get("detections"), response_json.get("nextPageToken"))`. -/
def search_detections (resp : DetResp α) :
    Except CheckErr (Option (List α) × Option String) × List Effect :=
  if 400 ≤ resp.status then
    (Except.error (CheckErr.httpError resp.status),
     [Effect.request 0, Effect.print resp.text])
  else
    (Except.ok (resp.detections, resp.nextPageToken), [Effect.request 0])

end SearchDetections

namespace AlertGen

/-- One page of the paginated detections fetch, as the facade returns it to
`validate_detection_generation`: `items` is `retrieved_detections`
(`None` when the response had no `detections` key) and `cursor` is
`next_page_token` (`None` when the response had no `nextPageToken` key). -/
structure Page (α : Type) where
  items : Option (List α)
  cursor : Option String
  deriving DecidableEq, Repr

/-- Python truthiness of the optional `next_page_token` string: the loop
`if next_page_token:` continues exactly when the token is present and
non-empty. -/
def pyTruthy : Option String → Bool
  | none => false
  | some s => !s.isEmpty

/-- The detection-collection loop (`validate_detection_generation` in
`health-check-github-validate-alert-generation/main.py`): each iteration
calls the detections facade; if the returned item list is absent (`None`) it
raises the fatal absence-of-data exception; otherwise it extends the
accumulator `raw_detections` with the returned items and continues exactly
when `next_page_token` is truthy. The finite list supplies the successive
facade results; exhausting it while the loop still wants a page yields the
modelling marker `stillRunning`. -/
def validate_detection_generation (acc : List α) :
    List (Page α) → Except CheckErr (List α)
  | [] => Except.error CheckErr.stillRunning
  | p :: rest =>
      match p.items with
      | none => Except.error (CheckErr.dataAbsence "no detections found for rule")
      | some items =>
          if pyTruthy p.cursor then
            validate_detection_generation (acc ++ items) rest
          else
            Except.ok (acc ++ items)

/-- The item list carried by a page whose `items` field is present (the
empty list when it is absent; used only under presence hypotheses). -/
def itemsOf (p : Page α) : List α := p.items.getD []

/-- Rule metadata carried by an alert record (`alert["ruleMetadata"]`). -/
structure RuleMetadata where
  ruleId : String
  deriving DecidableEq, Repr

/-- An alert record returned by the rule-alerts search: the rule-identity
field `ruleMetadata.ruleId` plus an opaque payload distinguishing records. -/
structure Alert where
  ruleMetadata : RuleMetadata
  payload : String
  deriving DecidableEq, Repr

/-- The response body returned by `search_rules_alerts`, modelled as a Python
dictionary (association list) whose values are alert lists; the body is falsy
exactly when the dictionary is empty. -/
abbrev AlertsBody := List (String × List Alert)

/-- Python dictionary key lookup returning `None` on a missing key (used to
model `retrieved_alerts["ruleAlerts"]`, which raises `KeyError` exactly when
this lookup yields `none`). -/
def lookupKey (d : AlertsBody) (k : String) : Option (List Alert) :=
  (d.find? fun kv => kv.1 = k).map fun kv => kv.2

/-- The filtering loop of `validate_alert_generation`: iterate over the
alert list and append to `relevant_alerts` exactly those alerts whose
`ruleMetadata.ruleId` equals the target rule ID, preserving order. -/
def relevant_alerts (rule_id : String) : List Alert → List Alert
  | [] => []
  | a :: rest =>
      if a.ruleMetadata.ruleId = rule_id then
        a :: relevant_alerts rule_id rest
      else
        relevant_alerts rule_id rest

/-- Stage B (`validate_alert_generation` in
`health-check-github-validate-alert-generation/main.py`): if the raw
response body is falsy, raise the fatal no-alerts-at-all exception; then
index `retrieved_alerts["ruleAlerts"]` (a `KeyError` when the key is
absent); filter by rule identity; raise the fatal no-alerts-for-rule
exception when the filtered list has length zero. -/
def validate_alert_generation (rule_id : String) (retrieved_alerts : AlertsBody) :
    Except CheckErr (List Alert) :=
  if retrieved_alerts.isEmpty then
    Except.error (CheckErr.dataAbsence "no alerts found for any rules")
  else
    match lookupKey retrieved_alerts "ruleAlerts" with
    | none => Except.error (CheckErr.keyError "ruleAlerts")
    | some ruleAlerts =>
        let relevant := relevant_alerts rule_id ruleAlerts
        if relevant.length = 0 then
          Except.error (CheckErr.dataAbsence "no alerts found for rule")
        else
          Except.ok relevant

/-- The orchestrator entry point (`main` in
`health-check-github-validate-alert-generation/main.py`): run Stage A
(`validate_detection_generation`), then Stage B
(`validate_alert_generation`), and return the literal string `OK`; a raised
error propagates and aborts the remaining stages. The trace records one
facade-invocation marker per stage actually run. -/
def main (rule_id : String) (pages : List (Page α)) (alertsBody : AlertsBody) :
    Except CheckErr String × List Effect :=
  match validate_detection_generation [] pages with
  | Except.error e => (Except.error e, [Effect.detectionsCall])
  | Except.ok _ =>
      match validate_alert_generation rule_id alertsBody with
      | Except.error e => (Except.error e, [Effect.detectionsCall, Effect.alertsCall])
      | Except.ok _ => (Except.ok "OK", [Effect.detectionsCall, Effect.alertsCall])

end AlertGen

namespace LogIngestion

/-- The JSON body returned by the UDM search endpoint as consumed by the
log-ingestion check: `response.get("events")`, `None` when the key is
absent. -/
structure UdmBody (α : Type) where
  events : Option (List α)
  deriving DecidableEq, Repr

/-- The log-ingestion check (`validate_github_log_ingestion` in
`health-check-github-validate-log-ingestion/main.py`): run the
rate-limit-aware UDM search once (default retry budget 3); if
`response.get("events")` is falsy (absent or empty) raise the fatal
zero-events exception; otherwise log the count of matched events and return
the literal string `OK`. -/
def validate_github_log_ingestion (session : Nat → HttpResp (UdmBody α)) :
    Except CheckErr String × List Effect :=
  let out := UdmSearch.udm_search session 3
  let effs := Effect.udmCall :: out.2
  match out.1 with
  | Except.error e => (Except.error e, effs)
  | Except.ok body =>
      match body.events with
      | none =>
          (Except.error (CheckErr.dataAbsence "0 events returned from UDM search"),
           effs)
      | some evs =>
          if evs.isEmpty then
            (Except.error (CheckErr.dataAbsence "0 events returned from UDM search"),
             effs)
          else
            (Except.ok "OK", effs ++ [Effect.logCount evs.length])

end LogIngestion

namespace UdmSearch

/-- The effect trace produced by the first `k` loop iterations when each of
them receives a 429 response: request, body print, rate-limit-message print
and a 60-second sleep, once per iteration. -/
def retryTrace (session : Nat → HttpResp β) (i : Nat) : Nat → List Effect
  | 0 => []
  | k + 1 =>
      [Effect.request i, Effect.print (session i).text, Effect.print rateMsg,
       Effect.sleep 60] ++ retryTrace session (i + 1) k

theorem numSleeps_append (xs ys : List Effect) :
    numSleeps (xs ++ ys) = numSleeps xs + numSleeps ys := by
  simp [numSleeps, List.filter_append]

theorem numRequests_append (xs ys : List Effect) :
    numRequests (xs ++ ys) = numRequests xs + numRequests ys := by
  simp [numRequests, List.filter_append]

theorem numSleeps_retryTrace (session : Nat → HttpResp β) :
    ∀ k i, numSleeps (retryTrace session i k) = k := by
  intro k
  induction k with
  | zero => intro i; simp [retryTrace, numSleeps]
  | succ n ih =>
      intro i
      rw [retryTrace, numSleeps_append, ih]
      have hstep :
          numSleeps [Effect.request i, Effect.print (session i).text,
            Effect.print rateMsg, Effect.sleep 60] = 1 := rfl
      omega

theorem numRequests_retryTrace (session : Nat → HttpResp β) :
    ∀ k i, numRequests (retryTrace session i k) = k := by
  intro k
  induction k with
  | zero => intro i; simp [retryTrace, numRequests]
  | succ n ih =>
      intro i
      rw [retryTrace, numRequests_append, ih]
      have hstep :
          numRequests [Effect.request i, Effect.print (session i).text,
            Effect.print rateMsg, Effect.sleep 60] = 1 := rfl
      omega

/-- If the loop sees 429 for the first `k` attempts starting at index `i` and
a non-429 status at attempt `i + k`, with `k` within the remaining budget,
then it ends with the response of attempt `i + k` and the trace is the `k`
retry blocks followed by the final request. -/
theorem udmSearchGo_break (session : Nat → HttpResp β) :
    ∀ k i remaining, k ≤ remaining →
    (∀ j, j < k → (session (i + j)).status = 429) →
    (session (i + k)).status ≠ 429 →
    udmSearchGo session i remaining =
      (session (i + k), retryTrace session i k ++ [Effect.request (i + k)]) := by
  intro k
  induction k with
  | zero =>
      intro i remaining _ _ hne
      simp only [Nat.add_zero] at hne
      cases remaining <;> simp [udmSearchGo, hne, retryTrace]
  | succ n ih =>
      intro i remaining hle h429 hne
      have h0 : (session i).status = 429 := by
        have := h429 0 (Nat.succ_pos n)
        simpa using this
      obtain ⟨r, rfl⟩ : ∃ r, remaining = r + 1 := by
        cases remaining with
        | zero => exact absurd hle (by omega)
        | succ r => exact ⟨r, rfl⟩
      have hrec := ih (i + 1) r (by omega)
        (fun j hj => by
          have := h429 (j + 1) (by omega)
          simpa [Nat.add_assoc, Nat.add_comm 1 j] using this)
        (by
          have : i + 1 + n = i + (n + 1) := by omega
          rw [this]; exact hne)
      simp only [udmSearchGo, h0, hrec, retryTrace]
      rw [if_neg (by simp)]
      have harith : i + 1 + n = i + (n + 1) := by omega
      rw [harith]
      simp [List.append_assoc]

/-- If every attempt within the budget returns 429, the loop runs all
`remaining + 1` iterations, sleeping after each one (the final iteration
included), and ends with the last 429 response. -/
theorem udmSearchGo_exhausted (session : Nat → HttpResp β) :
    ∀ remaining i, (∀ j, j ≤ remaining → (session (i + j)).status = 429) →
    udmSearchGo session i remaining =
      (session (i + remaining), retryTrace session i (remaining + 1)) := by
  intro remaining
  induction remaining with
  | zero =>
      intro i h429
      have h0 : (session i).status = 429 := by simpa using h429 0 (Nat.le_refl 0)
      simp [udmSearchGo, h0, retryTrace]
  | succ r ih =>
      intro i h429
      have h0 : (session i).status = 429 := by simpa using h429 0 (by omega)
      have hrec := ih (i + 1)
        (fun j hj => by
          have := h429 (j + 1) (by omega)
          simpa [Nat.add_assoc, Nat.add_comm 1 j] using this)
      simp only [udmSearchGo, h0, hrec, retryTrace]
      rw [if_neg (by simp)]
      have harith : i + 1 + r = i + (r + 1) := by omega
      rw [harith]

/-- Executor behaviour when attempt `k` is the first non-429 attempt and the
budget allows reaching it. -/
theorem udm_search_break (session : Nat → HttpResp β) (m k : Nat)
    (hk : k ≤ m) (h429 : ∀ j, j < k → (session j).status = 429)
    (hne : (session k).status ≠ 429) :
    udm_search session m =
      (if 400 ≤ (session k).status then
         Except.error (CheckErr.httpError (session k).status)
       else Except.ok (session k).body,
       retryTrace session 0 k ++ [Effect.request k]) := by
  have hgo := udmSearchGo_break session k 0 m hk
    (fun j hj => by simpa using h429 j hj) (by simpa using hne)
  simp [udm_search, hgo]

/-- Executor behaviour when every attempt within the budget returns 429. -/
theorem udm_search_exhausted (session : Nat → HttpResp β) (m : Nat)
    (h429 : ∀ j, j ≤ m → (session j).status = 429) :
    udm_search session m =
      (Except.error (CheckErr.httpError 429), retryTrace session 0 (m + 1)) := by
  have hgo := udmSearchGo_exhausted session m 0
    (fun j hj => by simpa using h429 j hj)
  have hm : (session m).status = 429 := h429 m (Nat.le_refl m)
  simp [udm_search, hgo, hm]

/-- Every 429 body observed during the first `k` iterations is printed in the
retry trace. -/
theorem print_mem_retryTrace (session : Nat → HttpResp β) :
    ∀ k i j, j < k →
      Effect.print (session (i + j)).text ∈ retryTrace session i k := by
  intro k
  induction k with
  | zero => intro i j hj; omega
  | succ n ih =>
      intro i j hj
      cases j with
      | zero => simp [retryTrace]
      | succ jj =>
          have hmem := ih (i + 1) jj (by omega)
          have harith : i + 1 + jj = i + (jj + 1) := by omega
          rw [harith] at hmem
          simp only [retryTrace, List.cons_append, List.nil_append, List.mem_cons]
          right; right; right; right
          exact hmem

/-- Inversion for prints in the retry trace: every printed string is either
the fixed rate-limit message or the body of one of the 429 responses
observed during the first `k` iterations. -/
theorem print_mem_retryTrace_inv (session : Nat → HttpResp β) :
    ∀ k i s, Effect.print s ∈ retryTrace session i k →
      s = rateMsg ∨ ∃ j, j < k ∧ s = (session (i + j)).text := by
  intro k
  induction k with
  | zero =>
      intro i s h
      simp [retryTrace] at h
  | succ n ih =>
      intro i s h
      simp only [retryTrace, List.cons_append, List.nil_append,
        List.mem_cons] at h
      rcases h with h1 | h1 | h1 | h1 | h1
      · exact absurd h1 (by simp)
      · right
        exact ⟨0, Nat.succ_pos n, by simpa using Effect.print.inj h1⟩
      · left
        exact Effect.print.inj h1
      · exact absurd h1 (by simp)
      · rcases ih (i + 1) s h1 with hm | ⟨j, hj, hs⟩
        · left
          exact hm
        · right
          refine ⟨j + 1, by omega, ?_⟩
          rwa [show i + (j + 1) = i + 1 + j by omega]

end UdmSearch

example :
    (UdmSearch.udm_search
      (fun n => if n = 0 then ⟨429, "a", "x"⟩ else
                if n = 1 then ⟨429, "b", "y"⟩ else ⟨200, "ok", "z"⟩) 3).1
      = Except.ok "z" := by decide

example :
    numSleeps (UdmSearch.udm_search
      (fun n => if n = 0 then (⟨429, "a", "x"⟩ : HttpResp String) else
                if n = 1 then ⟨429, "b", "y"⟩ else ⟨200, "ok", "z"⟩) 3).2
      = 2 := by decide

example :
    numSleeps (UdmSearch.udm_search
      (fun _ => (⟨429, "a", "x"⟩ : HttpResp String)) 0).2 = 1 := by decide

/-- C1 counterexample: with `max_retries = 0` and a session that always
answers 429, the executor performs zero retries (a single request) yet one
60-second sleep, so the number of sleeps does not equal the number of
retried attempts as the claim states. -/
theorem C1_counterexample :
    numSleeps (UdmSearch.udm_search
      (fun _ => ({ status := 429, text := "rl", body := 0 } : HttpResp Nat)) 0).2 = 1 ∧
    numRequests (UdmSearch.udm_search
      (fun _ => ({ status := 429, text := "rl", body := 0 } : HttpResp Nat)) 0).2 = 1 ∧
    numSleeps (UdmSearch.udm_search
      (fun _ => ({ status := 429, text := "rl", body := 0 } : HttpResp Nat)) 0).2 ≠
      numRequests (UdmSearch.udm_search
        (fun _ => ({ status := 429, text := "rl", body := 0 } : HttpResp Nat)) 0).2 - 1 := by
  decide

/-- C1 (amended): the rate-limit-aware UDM search executor retries exactly
on status 429, at most `max_retries` times, and performs exactly one fixed
60-second sleep per 429 response observed — so when the first non-429
response arrives at attempt `k` there are `k` sleeps and `k + 1` requests
and the loop ends immediately with that response, while when every attempt
within the budget returns 429 there are `max_retries + 1` sleeps (one more
than the number of retried attempts, the final 429 also being slept on) and
the call fails with the 429 HTTP error. In particular for the sequence 429,
429, 200 with `max_retries = 3` exactly two 60-second sleeps occur and the
final result is the 200 response. -/
theorem C1_retry_loop (session : Nat → HttpResp β) (m : Nat) :
    (∀ k, k ≤ m → (∀ j, j < k → (session j).status = 429) →
      (session k).status ≠ 429 →
      numSleeps (UdmSearch.udm_search session m).2 = k ∧
      numRequests (UdmSearch.udm_search session m).2 = k + 1 ∧
      (UdmSearch.udm_search session m).1 =
        (if 400 ≤ (session k).status then
           Except.error (CheckErr.httpError (session k).status)
         else Except.ok (session k).body)) ∧
    ((∀ j, j ≤ m → (session j).status = 429) →
      numSleeps (UdmSearch.udm_search session m).2 = m + 1 ∧
      numRequests (UdmSearch.udm_search session m).2 = m + 1 ∧
      (UdmSearch.udm_search session m).1 =
        Except.error (CheckErr.httpError 429)) := by
  constructor
  · intro k hk h429 hne
    rw [UdmSearch.udm_search_break session m k hk h429 hne]
    refine ⟨?_, ?_, rfl⟩
    · rw [UdmSearch.numSleeps_append, UdmSearch.numSleeps_retryTrace]
      have hone : numSleeps [Effect.request k] = 0 := rfl
      omega
    · rw [UdmSearch.numRequests_append, UdmSearch.numRequests_retryTrace]
      have hone : numRequests [Effect.request k] = 1 := rfl
      omega
  · intro h429
    rw [UdmSearch.udm_search_exhausted session m h429]
    exact ⟨UdmSearch.numSleeps_retryTrace session (m + 1) 0,
      UdmSearch.numRequests_retryTrace session (m + 1) 0, rfl⟩

/-- C1 witness: the end-to-end scenario 429, 429, 200 with
`max_retries = 3` — exactly two 60-second sleeps, three requests, and the
final result is the 200 response's body. -/
theorem C1_retry_loop_witness :
    numSleeps (UdmSearch.udm_search
      (fun n => if n = 0 then ({ status := 429, text := "rl", body := 0 } : HttpResp Nat)
                else if n = 1 then { status := 429, text := "rl", body := 0 }
                else { status := 200, text := "ok", body := 7 }) 3).2 = 2 ∧
    numRequests (UdmSearch.udm_search
      (fun n => if n = 0 then ({ status := 429, text := "rl", body := 0 } : HttpResp Nat)
                else if n = 1 then { status := 429, text := "rl", body := 0 }
                else { status := 200, text := "ok", body := 7 }) 3).2 = 3 ∧
    (UdmSearch.udm_search
      (fun n => if n = 0 then ({ status := 429, text := "rl", body := 0 } : HttpResp Nat)
                else if n = 1 then { status := 429, text := "rl", body := 0 }
                else { status := 200, text := "ok", body := 7 }) 3).1 = Except.ok 7 := by
  have h := (C1_retry_loop
    (fun n => if n = 0 then ({ status := 429, text := "rl", body := 0 } : HttpResp Nat)
              else if n = 1 then { status := 429, text := "rl", body := 0 }
              else { status := 200, text := "ok", body := 7 }) 3).1 2
    (by omega) (by decide) (by decide)
  exact ⟨h.1, h.2.1, by rw [h.2.2]; decide⟩

/-- C6 counterexample: a first-attempt 500 response with body `boom` makes
the rate-limit-aware executor raise the HTTP error without ever emitting the
body to the diagnostic channel, contrary to the claim. -/
theorem C6_counterexample :
    (UdmSearch.udm_search
      (fun _ => ({ status := 500, text := "boom", body := 0 } : HttpResp Nat)) 3).1 =
      Except.error (CheckErr.httpError 500) ∧
    Effect.print "boom" ∉ (UdmSearch.udm_search
      (fun _ => ({ status := 500, text := "boom", body := 0 } : HttpResp Nat)) 3).2 := by
  decide

/-- C6 (amended): the legacy UDM executor and the detections facade emit the
raw response body to the diagnostic channel before raising on any error
status; the rate-limit-aware executor emits bodies only for 429 responses,
regardless of retry state — whenever a non-429 error status arrives at
attempt `k` after `k` leading 429s, the call raises the HTTP error for that
status with a trace consisting of exactly the `k` retry blocks and the final
request, so the error body is never emitted (it occurs in no print provided
it does not textually coincide with an earlier 429 body or the fixed
rate-limit message) — while on budget exhaustion every 429 body (the final
one included) has been printed before the HTTP error is raised. -/
theorem C6_diagnostic_emission :
    (∀ (β : Type) (resp : HttpResp β), 400 ≤ resp.status →
      (UdmSearchLegacy.udm_search resp).1 =
        Except.error (CheckErr.httpError resp.status) ∧
      Effect.print resp.text ∈ (UdmSearchLegacy.udm_search resp).2) ∧
    (∀ (α : Type) (resp : SearchDetections.DetResp α), 400 ≤ resp.status →
      (SearchDetections.search_detections resp).1 =
        Except.error (CheckErr.httpError resp.status) ∧
      Effect.print resp.text ∈ (SearchDetections.search_detections resp).2) ∧
    (∀ (β : Type) (session : Nat → HttpResp β) (m k : Nat),
      k ≤ m → (∀ j, j < k → (session j).status = 429) →
      400 ≤ (session k).status → (session k).status ≠ 429 →
      (UdmSearch.udm_search session m).1 =
        Except.error (CheckErr.httpError (session k).status) ∧
      (UdmSearch.udm_search session m).2 =
        UdmSearch.retryTrace session 0 k ++ [Effect.request k] ∧
      (((session k).text ≠ UdmSearch.rateMsg ∧
          ∀ j, j < k → (session j).text ≠ (session k).text) →
        Effect.print (session k).text ∉ (UdmSearch.udm_search session m).2)) ∧
    (∀ (β : Type) (session : Nat → HttpResp β) (m : Nat),
      (∀ j, j ≤ m → (session j).status = 429) →
      (UdmSearch.udm_search session m).1 =
        Except.error (CheckErr.httpError 429) ∧
      ∀ j, j ≤ m →
        Effect.print (session j).text ∈ (UdmSearch.udm_search session m).2) := by
  refine ⟨?_, ?_, ?_, ?_⟩
  · intro β resp h
    simp [UdmSearchLegacy.udm_search, h]
  · intro α resp h
    simp [SearchDetections.search_detections, h]
  · intro β session m k hk h429 h400 hne
    have hb := UdmSearch.udm_search_break session m k hk h429 hne
    rw [if_pos h400] at hb
    refine ⟨by rw [hb], by rw [hb], ?_⟩
    rintro ⟨hmsg, hbodies⟩ hmem
    rw [hb] at hmem
    rcases List.mem_append.mp hmem with hm1 | hm2
    · rcases UdmSearch.print_mem_retryTrace_inv session k 0 _ hm1 with h | ⟨j, hj, hs⟩
      · exact hmsg h
      · exact hbodies j hj (by simpa using hs.symm)
    · simp at hm2
  · intro β session m h429
    rw [UdmSearch.udm_search_exhausted session m h429]
    refine ⟨rfl, fun j hj => ?_⟩
    have := UdmSearch.print_mem_retryTrace session (m + 1) 0 j (by omega)
    simpa using this

/-- C6 witness: concrete instances — a legacy 500 response and a detections
404 response have their bodies printed before the error; a 429 followed by a
500 in the rate-limit-aware executor raises the 500 HTTP error with the 500
body `boom` never emitted; an immediate 503 leaves a single-request trace;
and a twice-429 exhausted run has both bodies printed. -/
theorem C6_diagnostic_emission_witness :
    Effect.print "legacyboom" ∈
      (UdmSearchLegacy.udm_search
        ({ status := 500, text := "legacyboom", body := 0 } : HttpResp Nat)).2 ∧
    Effect.print "detboom" ∈
      (SearchDetections.search_detections
        ({ status := 404, text := "detboom", detections := none,
           nextPageToken := none } : SearchDetections.DetResp Nat)).2 ∧
    (UdmSearch.udm_search
      (fun n => if n = 0 then ({ status := 429, text := "rl0", body := 0 } : HttpResp Nat)
                else { status := 500, text := "boom", body := 0 }) 3).1 =
      Except.error (CheckErr.httpError 500) ∧
    Effect.print "boom" ∉ (UdmSearch.udm_search
      (fun n => if n = 0 then ({ status := 429, text := "rl0", body := 0 } : HttpResp Nat)
                else { status := 500, text := "boom", body := 0 }) 3).2 ∧
    (UdmSearch.udm_search
      (fun _ => ({ status := 503, text := "hidden", body := 0 } : HttpResp Nat)) 3).2 =
      [Effect.request 0] ∧
    Effect.print "rl1" ∈ (UdmSearch.udm_search
      (fun n => if n = 0 then ({ status := 429, text := "rl0", body := 0 } : HttpResp Nat)
                else { status := 429, text := "rl1", body := 0 }) 1).2 := by
  have h1 := C6_diagnostic_emission.1 Nat
    ({ status := 500, text := "legacyboom", body := 0 } : HttpResp Nat) (by decide)
  have h2 := C6_diagnostic_emission.2.1 Nat
    ({ status := 404, text := "detboom", detections := none,
       nextPageToken := none } : SearchDetections.DetResp Nat) (by decide)
  have h3 := C6_diagnostic_emission.2.2.1 Nat
    (fun n => if n = 0 then ({ status := 429, text := "rl0", body := 0 } : HttpResp Nat)
              else { status := 500, text := "boom", body := 0 }) 3 1
    (by omega) (by decide) (by decide) (by decide)
  have h5 := C6_diagnostic_emission.2.2.1 Nat
    (fun _ => ({ status := 503, text := "hidden", body := 0 } : HttpResp Nat)) 3 0
    (by omega) (fun j hj => absurd hj (Nat.not_lt_zero j)) (by decide) (by decide)
  have h4 := (C6_diagnostic_emission.2.2.2 Nat
    (fun n => if n = 0 then ({ status := 429, text := "rl0", body := 0 } : HttpResp Nat)
              else { status := 429, text := "rl1", body := 0 }) 1
    (by decide)).2 1 (by decide)
  exact ⟨h1.2, h2.2, h3.1, h3.2.2 ⟨by decide, by decide⟩, h5.2.1, h4⟩

/-- Absence characterization of the detection-collection loop: it raises the
fatal absence-of-data error exactly when the supplied page sequence
decomposes into a prefix of pages that are present and continuing followed
by a page with an absent item list. -/
theorem validate_dg_absence_iff (pages : List (AlertGen.Page α)) :
    ∀ acc, (AlertGen.validate_detection_generation acc pages =
        Except.error (CheckErr.dataAbsence "no detections found for rule") ↔
      ∃ pre p suf, pages = pre ++ p :: suf ∧ p.items = none ∧
        ∀ q ∈ pre, q.items ≠ none ∧ AlertGen.pyTruthy q.cursor) := by
  induction pages with
  | nil =>
      intro acc
      constructor
      · intro h
        exact absurd h (by simp [AlertGen.validate_detection_generation])
      · rintro ⟨pre, p, suf, hdec, -, -⟩
        exact absurd hdec (by simp)
  | cons p rest ih =>
      intro acc
      cases hi : p.items with
      | none =>
          simp only [AlertGen.validate_detection_generation, hi]
          constructor
          · intro _
            exact ⟨[], p, rest, rfl, hi, by simp⟩
          · intro _
            trivial
      | some its =>
          cases hc : AlertGen.pyTruthy p.cursor with
          | true =>
              simp only [AlertGen.validate_detection_generation, hi, hc, if_true]
              rw [ih (acc ++ its)]
              constructor
              · rintro ⟨pre, q, suf, hdec, hqn, hall⟩
                refine ⟨p :: pre, q, suf, by rw [hdec]; rfl, hqn, ?_⟩
                intro x hx
                rcases List.mem_cons.mp hx with hx1 | hx2
                · subst hx1
                  exact ⟨by simp [hi], hc⟩
                · exact hall x hx2
              · rintro ⟨pre, q, suf, hdec, hqn, hall⟩
                cases pre with
                | nil =>
                    simp only [List.nil_append, List.cons.injEq] at hdec
                    obtain ⟨rfl, rfl⟩ := hdec
                    rw [hi] at hqn
                    exact absurd hqn (by simp)
                | cons p0 pre2 =>
                    simp only [List.cons_append, List.cons.injEq] at hdec
                    obtain ⟨rfl, hdec2⟩ := hdec
                    exact ⟨pre2, q, suf, hdec2, hqn,
                      fun x hx => hall x (List.mem_cons_of_mem _ hx)⟩
          | false =>
              simp only [AlertGen.validate_detection_generation, hi, hc,
                Bool.false_eq_true, if_false]
              constructor
              · intro h
                exact absurd h (by simp)
              · rintro ⟨pre, q, suf, hdec, hqn, hall⟩
                cases pre with
                | nil =>
                    simp only [List.nil_append, List.cons.injEq] at hdec
                    obtain ⟨rfl, rfl⟩ := hdec
                    rw [hi] at hqn
                    exact absurd hqn (by simp)
                | cons p0 pre2 =>
                    simp only [List.cons_append, List.cons.injEq] at hdec
                    obtain ⟨rfl, -⟩ := hdec
                    have hcq := (hall p (by simp)).2
                    rw [hc] at hcq
                    exact absurd hcq (by simp)

/-- C2 counterexample: a first page with present items and a continuing
cursor followed by a second page with an absent item list makes the
collection loop raise the fatal absence-of-data error — a page call after
the first does trigger it, contrary to the claim. -/
theorem C2_counterexample :
    AlertGen.validate_detection_generation ([] : List Nat)
        [{ items := some [0], cursor := some "tok" }, { items := none, cursor := none }] =
      Except.error (CheckErr.dataAbsence "no detections found for rule") ∧
    ({ items := some [0], cursor := some "tok" } : AlertGen.Page Nat).items ≠ none := by
  decide

/-- C2 (amended): the detection-collection loop raises its fatal
absence-of-data error if and only if some page call reached during
collection (not necessarily the first) returns an absent item list, every
earlier page having present items and a truthy continuation cursor; a
present-but-empty item list never triggers it. -/
theorem C2_data_absence (pages : List (AlertGen.Page α)) :
    (AlertGen.validate_detection_generation [] pages =
        Except.error (CheckErr.dataAbsence "no detections found for rule") ↔
      ∃ pre p suf, pages = pre ++ p :: suf ∧ p.items = none ∧
        ∀ q ∈ pre, q.items ≠ none ∧ AlertGen.pyTruthy q.cursor) ∧
    ((∀ q ∈ pages, q.items ≠ none) →
      AlertGen.validate_detection_generation [] pages ≠
        Except.error (CheckErr.dataAbsence "no detections found for rule")) := by
  refine ⟨validate_dg_absence_iff pages [], fun hpres habs => ?_⟩
  obtain ⟨pre, p, suf, hdec, hqn, -⟩ := (validate_dg_absence_iff pages []).mp habs
  have hp : p ∈ pages := by
    rw [hdec]
    exact List.mem_append_right pre (List.mem_cons_self p suf)
  exact hpres p hp hqn

/-- C2 witness: an absent first page triggers the error; a single
present-but-empty page does not. -/
theorem C2_data_absence_witness :
    AlertGen.validate_detection_generation ([] : List Nat)
        [{ items := none, cursor := none }] =
      Except.error (CheckErr.dataAbsence "no detections found for rule") ∧
    AlertGen.validate_detection_generation ([] : List Nat)
        [{ items := some [], cursor := none }] ≠
      Except.error (CheckErr.dataAbsence "no detections found for rule") := by
  constructor
  · exact (C2_data_absence [{ items := none, cursor := none }]).1.mpr
      ⟨[], { items := none, cursor := none }, [], rfl, rfl, by simp⟩
  · exact (C2_data_absence [{ items := some [], cursor := none }]).2 (by decide)

/-- Running the collection loop across a prefix of present, continuing pages
appends the concatenation of their item lists to the accumulator. -/
theorem validate_dg_run (pre : List (AlertGen.Page α)) :
    ∀ (acc : List α) (rest : List (AlertGen.Page α)),
      (∀ q ∈ pre, q.items ≠ none ∧ AlertGen.pyTruthy q.cursor) →
      AlertGen.validate_detection_generation acc (pre ++ rest) =
        AlertGen.validate_detection_generation
          (acc ++ (pre.map AlertGen.itemsOf).flatten) rest := by
  induction pre with
  | nil => intro acc rest _; simp
  | cons q pre2 ih =>
      intro acc rest h
      obtain ⟨hq, hc⟩ := h q (by simp)
      obtain ⟨l, hl⟩ : ∃ l, q.items = some l := by
        cases hql : q.items with
        | none => exact absurd hql hq
        | some l => exact ⟨l, rfl⟩
      simp only [List.cons_append, AlertGen.validate_detection_generation, hl,
        hc, if_true, List.append_eq]
      rw [ih (acc ++ l) rest (fun x hx => h x (List.mem_cons_of_mem _ hx))]
      congr 1
      simp [AlertGen.itemsOf, hl, List.append_assoc]

/-- C3 counterexample: with every item list present, a first page carrying
the present-but-empty continuation cursor stops collection, so the
accumulated result is its items alone rather than the concatenation of all
pages' items, contrary to the claim that collection stops only when a page
omits its cursor. -/
theorem C3_counterexample :
    AlertGen.validate_detection_generation ([] : List Nat)
        [{ items := some [1], cursor := some "" }, { items := some [2], cursor := none }] =
      Except.ok [1] ∧
    (([({ items := some [1], cursor := some "" } : AlertGen.Page Nat),
       { items := some [2], cursor := none }].map AlertGen.itemsOf).flatten = [1, 2]) ∧
    ({ items := some [1], cursor := some "" } : AlertGen.Page Nat).cursor ≠ none := by
  decide

/-- C3 (amended): when every page's item list is present, the accumulated
result equals the concatenation of the consumed pages' item lists in
page-arrival order with no deduplication or reordering, and collection stops
if and only if a page's continuation cursor is absent or empty (Python
falsy): the loop consumes pages up to and including the first page with a
falsy cursor, and if every supplied page has a truthy cursor the loop is
still running when the supplied pages are exhausted. -/
theorem C3_concatenation (pre : List (AlertGen.Page α)) (p : AlertGen.Page α)
    (suf : List (AlertGen.Page α)) (lp : List α) :
    ((∀ q ∈ pre, q.items ≠ none ∧ AlertGen.pyTruthy q.cursor) →
      p.items = some lp → AlertGen.pyTruthy p.cursor = false →
      AlertGen.validate_detection_generation [] (pre ++ p :: suf) =
        Except.ok ((pre.map AlertGen.itemsOf).flatten ++ lp)) ∧
    ((∀ q ∈ pre, q.items ≠ none ∧ AlertGen.pyTruthy q.cursor) →
      AlertGen.validate_detection_generation [] pre =
        Except.error CheckErr.stillRunning) := by
  constructor
  · intro hpre hp hc
    rw [validate_dg_run pre [] (p :: suf) hpre]
    simp only [AlertGen.validate_detection_generation, hp, hc,
      Bool.false_eq_true, if_false, List.nil_append]
  · intro hpre
    have h := validate_dg_run pre [] [] hpre
    rw [List.append_nil] at h
    rw [h]
    rfl

/-- C3 witness: scenario 3 — page 1 has items `[1]` and cursor `"tok1"`,
page 2 has items `[2, 3]` and no cursor; the result set is `[1, 2, 3]`; and
a page sequence whose every cursor is truthy leaves the loop running. -/
theorem C3_concatenation_witness :
    AlertGen.validate_detection_generation ([] : List Nat)
        [{ items := some [1], cursor := some "tok1" },
         { items := some [2, 3], cursor := none }] = Except.ok [1, 2, 3] ∧
    AlertGen.validate_detection_generation ([] : List Nat)
        [{ items := some [1], cursor := some "tok1" }] =
      Except.error CheckErr.stillRunning := by
  constructor
  · have h := (C3_concatenation
      [({ items := some [1], cursor := some "tok1" } : AlertGen.Page Nat)]
      { items := some [2, 3], cursor := none } [] [2, 3]).1
      (by decide) rfl rfl
    simpa using h
  · exact (C3_concatenation
      [({ items := some [1], cursor := some "tok1" } : AlertGen.Page Nat)]
      { items := none, cursor := none } [] []).2 (by decide)

theorem numUdmCalls_append (xs ys : List Effect) :
    numUdmCalls (xs ++ ys) = numUdmCalls xs + numUdmCalls ys := by
  simp [numUdmCalls, List.filter_append]

/-- The executor's retry loop never records a facade-invocation marker. -/
theorem numUdmCalls_udmSearchGo (session : Nat → HttpResp β) :
    ∀ remaining i, numUdmCalls (UdmSearch.udmSearchGo session i remaining).2 = 0 := by
  intro remaining
  induction remaining with
  | zero =>
      intro i
      by_cases h : (session i).status ≠ 429
      · simp only [UdmSearch.udmSearchGo]
        rw [if_pos h]
        rfl
      · simp only [UdmSearch.udmSearchGo]
        rw [if_neg h]
        rfl
  | succ r ih =>
      intro i
      by_cases h : (session i).status ≠ 429
      · simp only [UdmSearch.udmSearchGo]
        rw [if_pos h]
        rfl
      · simp only [UdmSearch.udmSearchGo]
        rw [if_neg h]
        have hrest := ih (i + 1)
        have hstep : numUdmCalls [Effect.request i, Effect.print (session i).text,
          Effect.print UdmSearch.rateMsg, Effect.sleep 60] = 0 := rfl
        rw [numUdmCalls_append]
        omega

/-- The rate-limit-aware executor's trace never records a facade-invocation
marker. -/
theorem numUdmCalls_udm_search (session : Nat → HttpResp β) (m : Nat) :
    numUdmCalls (UdmSearch.udm_search session m).2 = 0 :=
  numUdmCalls_udmSearchGo session m 0

/-- C8: the log-ingestion check runs UDM search exactly once (one facade
invocation in every trace); when the single attempt answers with a non-429
2xx status, the check fails with the fatal zero-events error exactly when the
response's `events` field is absent or empty, and otherwise returns the
literal `OK` while logging the count of matched events. -/
theorem C8_log_ingestion (session : Nat → HttpResp (LogIngestion.UdmBody α)) :
    numUdmCalls (LogIngestion.validate_github_log_ingestion session).2 = 1 ∧
    ((session 0).status < 400 → (session 0).status ≠ 429 →
      (((LogIngestion.validate_github_log_ingestion session).1 =
          Except.error (CheckErr.dataAbsence "0 events returned from UDM search")) ↔
        ((session 0).body.events = none ∨ (session 0).body.events = some []))) ∧
    ((session 0).status < 400 → (session 0).status ≠ 429 →
      ∀ evs, (session 0).body.events = some evs → evs ≠ [] →
        (LogIngestion.validate_github_log_ingestion session).1 = Except.ok "OK" ∧
        Effect.logCount evs.length ∈
          (LogIngestion.validate_github_log_ingestion session).2) := by
  have hcount : numUdmCalls (LogIngestion.validate_github_log_ingestion session).2 = 1 := by
    have hzero := numUdmCalls_udm_search session 3
    have hone : ∀ t : List Effect, numUdmCalls t = 0 →
        numUdmCalls (Effect.udmCall :: t) = 1 := by
      intro t ht
      have : numUdmCalls (Effect.udmCall :: t) = 1 + numUdmCalls t := by
        simp [numUdmCalls, List.filter_cons]
        omega
      omega
    cases h1 : (UdmSearch.udm_search session 3).1 with
    | error e =>
        simp only [LogIngestion.validate_github_log_ingestion, h1]
        exact hone _ hzero
    | ok body =>
        cases hev : body.events with
        | none =>
            simp only [LogIngestion.validate_github_log_ingestion, h1, hev]
            exact hone _ hzero
        | some evs =>
            cases evs with
            | nil =>
                simp only [LogIngestion.validate_github_log_ingestion, h1, hev,
                  List.isEmpty_nil, if_true]
                exact hone _ hzero
            | cons e0 es =>
                simp only [LogIngestion.validate_github_log_ingestion, h1, hev,
                  List.isEmpty_cons, Bool.false_eq_true, if_false]
                rw [show (Effect.udmCall :: (UdmSearch.udm_search session 3).2) ++
                    [Effect.logCount (e0 :: es).length] =
                    Effect.udmCall :: ((UdmSearch.udm_search session 3).2 ++
                      [Effect.logCount (e0 :: es).length]) from rfl]
                apply hone
                rw [numUdmCalls_append, hzero]
                rfl
  have hbreak : ∀ h400 : (session 0).status < 400, (session 0).status ≠ 429 →
      UdmSearch.udm_search session 3 =
        (Except.ok (session 0).body, [Effect.request 0]) := by
    intro h400 hne
    have h := UdmSearch.udm_search_break session 3 0 (by omega)
      (fun j hj => absurd hj (Nat.not_lt_zero j)) hne
    rw [if_neg (by omega)] at h
    simpa [UdmSearch.retryTrace] using h
  refine ⟨hcount, ?_, ?_⟩
  · intro h400 hne
    have h := hbreak h400 hne
    cases hev : (session 0).body.events with
    | none =>
        simp [LogIngestion.validate_github_log_ingestion, h, hev]
    | some evs =>
        cases evs with
        | nil => simp [LogIngestion.validate_github_log_ingestion, h, hev]
        | cons e0 es => simp [LogIngestion.validate_github_log_ingestion, h, hev]
  · intro h400 hne evs hev hevne
    have h := hbreak h400 hne
    cases evs with
    | nil => exact absurd rfl hevne
    | cons e0 es =>
        constructor
        · simp [LogIngestion.validate_github_log_ingestion, h, hev]
        · simp [LogIngestion.validate_github_log_ingestion, h, hev]

/-- C8 witness: end-to-end scenarios 1 and 2 — a 200 response with two
events yields `OK` with logged count 2 and one UDM-search invocation, and a
200 response with no `events` key raises the fatal zero-events error. -/
theorem C8_log_ingestion_witness :
    (LogIngestion.validate_github_log_ingestion
      (fun _ => ({ status := 200, text := "ok",
                   body := { events := some [10, 20] } } :
        HttpResp (LogIngestion.UdmBody Nat)))).1 =
      Except.ok "OK" ∧
    Effect.logCount 2 ∈ (LogIngestion.validate_github_log_ingestion
      (fun _ => ({ status := 200, text := "ok",
                   body := { events := some [10, 20] } } :
        HttpResp (LogIngestion.UdmBody Nat)))).2 ∧
    numUdmCalls (LogIngestion.validate_github_log_ingestion
      (fun _ => ({ status := 200, text := "ok",
                   body := { events := some [10, 20] } } :
        HttpResp (LogIngestion.UdmBody Nat)))).2 = 1 ∧
    (LogIngestion.validate_github_log_ingestion
      (fun _ => ({ status := 200, text := "empty",
                   body := { events := none } } :
        HttpResp (LogIngestion.UdmBody Nat)))).1 =
      Except.error (CheckErr.dataAbsence "0 events returned from UDM search") := by
  have h1 := (C8_log_ingestion
    (fun _ => ({ status := 200, text := "ok",
                 body := { events := some [10, 20] } } :
      HttpResp (LogIngestion.UdmBody Nat)))).2.2
    (by decide) (by decide) [10, 20] rfl (by decide)
  have h2 := (C8_log_ingestion
    (fun _ => ({ status := 200, text := "ok",
                 body := { events := some [10, 20] } } :
      HttpResp (LogIngestion.UdmBody Nat)))).1
  have h3 := ((C8_log_ingestion
    (fun _ => ({ status := 200, text := "empty",
                 body := { events := none } } :
      HttpResp (LogIngestion.UdmBody Nat)))).2.1
    (by decide) (by decide)).mpr (Or.inl rfl)
  exact ⟨h1.1, h1.2, h2, h3⟩

/-- C10: the detections search facade performs exactly one request with no
sleep; any status of at least 400 (429 included) raises the HTTP error after
emitting the raw body, and any status below 400 returns the pair of the
optional `detections` field and the optional `nextPageToken` field. -/
theorem C10_detections_single_shot (resp : SearchDetections.DetResp α) :
    numRequests (SearchDetections.search_detections resp).2 = 1 ∧
    numSleeps (SearchDetections.search_detections resp).2 = 0 ∧
    (400 ≤ resp.status →
      (SearchDetections.search_detections resp).1 =
        Except.error (CheckErr.httpError resp.status) ∧
      (SearchDetections.search_detections resp).2 =
        [Effect.request 0, Effect.print resp.text]) ∧
    (resp.status < 400 →
      (SearchDetections.search_detections resp).1 =
        Except.ok (resp.detections, resp.nextPageToken)) := by
  by_cases h : 400 ≤ resp.status
  · refine ⟨?_, ?_, fun _ => ⟨?_, ?_⟩, fun hlt => absurd h (by omega)⟩ <;>
      simp [SearchDetections.search_detections, h, numRequests, numSleeps]
  · refine ⟨?_, ?_, fun h4 => absurd h4 h, fun _ => ?_⟩ <;>
      simp [SearchDetections.search_detections, h, numRequests, numSleeps]

/-- C4: Stage B filters the returned alert list by pure equality of the
rule-identity field against the target rule ID: for an alert list carrying
alerts for rules A, B, A (B distinct from A) and target A the retained set
is exactly the two A-alerts in order and the stage succeeds, while a target
C for which no alert in the list carries rule C fails fatally. -/
theorem C4_stageB_filter (a1 b a2 : AlertGen.Alert) (A C : String)
    (h1 : a1.ruleMetadata.ruleId = A) (h2 : a2.ruleMetadata.ruleId = A)
    (hb : b.ruleMetadata.ruleId ≠ A)
    (hC1 : a1.ruleMetadata.ruleId ≠ C) (hC2 : a2.ruleMetadata.ruleId ≠ C)
    (hbC : b.ruleMetadata.ruleId ≠ C) :
    AlertGen.relevant_alerts A [a1, b, a2] = [a1, a2] ∧
    AlertGen.validate_alert_generation A [("ruleAlerts", [a1, b, a2])] =
      Except.ok [a1, a2] ∧
    AlertGen.validate_alert_generation C [("ruleAlerts", [a1, b, a2])] =
      Except.error (CheckErr.dataAbsence "no alerts found for rule") := by
  have hrelA : AlertGen.relevant_alerts A [a1, b, a2] = [a1, a2] := by
    simp [AlertGen.relevant_alerts, h1, h2, hb]
  have hrelC : AlertGen.relevant_alerts C [a1, b, a2] = [] := by
    simp [AlertGen.relevant_alerts, hC1, hC2, hbC]
  have hkey : AlertGen.lookupKey [("ruleAlerts", [a1, b, a2])] "ruleAlerts" =
      some [a1, b, a2] := rfl
  refine ⟨hrelA, ?_, ?_⟩
  · simp [AlertGen.validate_alert_generation, hkey, hrelA]
  · simp [AlertGen.validate_alert_generation, hkey, hrelC]

/-- C4 witness: concrete alerts for rules A, B, A with targets A and C. -/
theorem C4_stageB_filter_witness :
    AlertGen.relevant_alerts "A"
        [{ ruleMetadata := { ruleId := "A" }, payload := "p1" },
         { ruleMetadata := { ruleId := "B" }, payload := "p2" },
         { ruleMetadata := { ruleId := "A" }, payload := "p3" }] =
      [{ ruleMetadata := { ruleId := "A" }, payload := "p1" },
       { ruleMetadata := { ruleId := "A" }, payload := "p3" }] ∧
    AlertGen.validate_alert_generation "C"
        [("ruleAlerts",
          [{ ruleMetadata := { ruleId := "A" }, payload := "p1" },
           { ruleMetadata := { ruleId := "B" }, payload := "p2" },
           { ruleMetadata := { ruleId := "A" }, payload := "p3" }])] =
      Except.error (CheckErr.dataAbsence "no alerts found for rule") := by
  have h := C4_stageB_filter
    { ruleMetadata := { ruleId := "A" }, payload := "p1" }
    { ruleMetadata := { ruleId := "B" }, payload := "p2" }
    { ruleMetadata := { ruleId := "A" }, payload := "p3" }
    "A" "C" rfl rfl (by decide) (by decide) (by decide) (by decide)
  exact ⟨h.1, h.2.2⟩

/-- C5: the orchestrator runs its two stages strictly in order — the overall
outcome is the literal string `OK` exactly when both stages succeed, a Stage
A failure propagates with zero Stage-B invocations recorded, a recorded
Stage-B invocation implies Stage A succeeded, and any success value is the
literal `OK`. -/
theorem C5_orchestrator (rule_id : String) (pages : List (AlertGen.Page α))
    (alertsBody : AlertGen.AlertsBody) :
    ((AlertGen.main rule_id pages alertsBody).1 = Except.ok "OK" ↔
      (∃ ds, AlertGen.validate_detection_generation ([] : List α) pages =
        Except.ok ds) ∧
      (∃ al, AlertGen.validate_alert_generation rule_id alertsBody =
        Except.ok al)) ∧
    (∀ e, AlertGen.validate_detection_generation ([] : List α) pages =
        Except.error e →
      (AlertGen.main rule_id pages alertsBody).1 = Except.error e ∧
      Effect.alertsCall ∉ (AlertGen.main rule_id pages alertsBody).2) ∧
    (Effect.alertsCall ∈ (AlertGen.main rule_id pages alertsBody).2 →
      ∃ ds, AlertGen.validate_detection_generation ([] : List α) pages =
        Except.ok ds) ∧
    (∀ s, (AlertGen.main rule_id pages alertsBody).1 = Except.ok s →
      s = "OK") := by
  cases hA : AlertGen.validate_detection_generation ([] : List α) pages with
  | error e0 =>
      refine ⟨?_, ?_, ?_, ?_⟩ <;> simp [AlertGen.main, hA]
  | ok ds =>
      cases hB : AlertGen.validate_alert_generation rule_id alertsBody with
      | error e1 =>
          refine ⟨?_, ?_, ?_, ?_⟩ <;> simp [AlertGen.main, hA, hB]
      | ok al =>
          refine ⟨?_, ?_, ?_, ?_⟩ <;> simp [AlertGen.main, hA, hB]

/-- C5 witness: a failing Stage A (absent first page) propagates its error
and records no Stage-B invocation, and a succeeding pair of stages yields
the literal `OK`. -/
theorem C5_orchestrator_witness :
    (AlertGen.main "A" [({ items := none, cursor := none } : AlertGen.Page Nat)]
        [("ruleAlerts", [{ ruleMetadata := { ruleId := "A" }, payload := "p" }])]).1 =
      Except.error (CheckErr.dataAbsence "no detections found for rule") ∧
    Effect.alertsCall ∉
      (AlertGen.main "A" [({ items := none, cursor := none } : AlertGen.Page Nat)]
        [("ruleAlerts", [{ ruleMetadata := { ruleId := "A" }, payload := "p" }])]).2 ∧
    (AlertGen.main "A" [({ items := some [3], cursor := none } : AlertGen.Page Nat)]
        [("ruleAlerts", [{ ruleMetadata := { ruleId := "A" }, payload := "p" }])]).1 =
      Except.ok "OK" := by
  have h1 := (C5_orchestrator "A"
    [({ items := none, cursor := none } : AlertGen.Page Nat)]
    [("ruleAlerts", [{ ruleMetadata := { ruleId := "A" }, payload := "p" }])]).2.1
    (CheckErr.dataAbsence "no detections found for rule") (by decide)
  have h2 := ((C5_orchestrator "A"
    [({ items := some [3], cursor := none } : AlertGen.Page Nat)]
    [("ruleAlerts", [{ ruleMetadata := { ruleId := "A" }, payload := "p" }])]).1).mpr
    ⟨⟨[3], by decide⟩,
     ⟨[{ ruleMetadata := { ruleId := "A" }, payload := "p" }], by decide⟩⟩
  exact ⟨h1.1, h1.2, h2⟩

/-- C9: in Stage B the no-alerts-at-all predicate tests emptiness of the
entire raw response object, not of the alert list: a truthy response body
lacking the `ruleAlerts` key raises the key-lookup error, and the
no-alerts-at-all fatal data-absence error is raised exactly when the whole
response body is empty/falsy. -/
theorem C9_stageB_raw_emptiness (rule_id : String) (body : AlertGen.AlertsBody) :
    (body ≠ [] → AlertGen.lookupKey body "ruleAlerts" = none →
      AlertGen.validate_alert_generation rule_id body =
        Except.error (CheckErr.keyError "ruleAlerts")) ∧
    (AlertGen.validate_alert_generation rule_id body =
        Except.error (CheckErr.dataAbsence "no alerts found for any rules") ↔
      body = []) := by
  constructor
  · intro hne hkey
    have hemp : body.isEmpty = false := by
      cases body with
      | nil => exact absurd rfl hne
      | cons x xs => rfl
    simp [AlertGen.validate_alert_generation, hemp, hkey]
  · constructor
    · intro h
      by_contra hne
      have hemp : body.isEmpty = false := by
        cases body with
        | nil => exact absurd rfl hne
        | cons x xs => rfl
      cases hk : AlertGen.lookupKey body "ruleAlerts" with
      | none =>
          simp [AlertGen.validate_alert_generation, hemp, hk] at h
      | some l =>
          by_cases hl : (AlertGen.relevant_alerts rule_id l).length = 0
          · simp [AlertGen.validate_alert_generation, hemp, hk, hl] at h
          · simp [AlertGen.validate_alert_generation, hemp, hk, hl] at h
    · intro h
      subst h
      rfl

/-- C9 witness: a truthy body without the `ruleAlerts` key raises the
key-lookup error, and the empty body raises the no-alerts-at-all error. -/
theorem C9_stageB_raw_emptiness_witness :
    AlertGen.validate_alert_generation "A" [("other", [])] =
      Except.error (CheckErr.keyError "ruleAlerts") ∧
    AlertGen.validate_alert_generation "A" [] =
      Except.error (CheckErr.dataAbsence "no alerts found for any rules") := by
  constructor
  · exact (C9_stageB_raw_emptiness "A" [("other", [])]).1 (by decide) (by decide)
  · exact (C9_stageB_raw_emptiness "A" []).2.mpr rfl

/-- Membership in the effective (encoded) parameter keys: a key survives the
encoding exactly when the mapping carries it with a present value. -/
theorem mem_effective_keys (ps : List (String × Option PVal)) (k : String) :
    k ∈ (effectiveParams ps).map Prod.fst ↔ ∃ v, (k, some v) ∈ ps := by
  simp only [effectiveParams, List.mem_map, List.mem_filterMap]
  constructor
  · rintro ⟨x, ⟨⟨kk, ov⟩, hmem, hmap⟩, rfl⟩
    cases ov with
    | none => simp at hmap
    | some v0 =>
        rw [show Option.map (fun v => (kk, v)) (some v0) = some (kk, v0) from rfl]
          at hmap
        obtain rfl : (kk, v0) = x := Option.some.inj hmap
        exact ⟨v0, hmem⟩
  · rintro ⟨v, hv⟩
    exact ⟨(k, v), ⟨(k, some v), hv, by simp⟩, rfl⟩

/-- C7: optional parameters the caller omitted (passed as `None`) do not
appear in the outgoing request's effective parameter set — each `None`
valued key of the detections-search and UDM-search parameter mappings is
omitted by the encoding rather than sent as an empty string, while
always-present keys such as `rule_id` and `query` do appear. -/
theorem C7_omitted_params (rule_id : String)
    (alert_state start_time end_time list_basis : Option String)
    (page_size : Option Int) (page_token : Option String)
    (query qstart qend : String) (limit : Option Int) :
    (alert_state = none → "alert_state" ∉ (effectiveParams
      (SearchDetections.search_detections_params rule_id alert_state start_time
        end_time list_basis page_size page_token)).map Prod.fst) ∧
    (start_time = none → "start_time" ∉ (effectiveParams
      (SearchDetections.search_detections_params rule_id alert_state start_time
        end_time list_basis page_size page_token)).map Prod.fst) ∧
    (end_time = none → "end_time" ∉ (effectiveParams
      (SearchDetections.search_detections_params rule_id alert_state start_time
        end_time list_basis page_size page_token)).map Prod.fst) ∧
    (list_basis = none → "list_basis" ∉ (effectiveParams
      (SearchDetections.search_detections_params rule_id alert_state start_time
        end_time list_basis page_size page_token)).map Prod.fst) ∧
    (page_size = none → "page_size" ∉ (effectiveParams
      (SearchDetections.search_detections_params rule_id alert_state start_time
        end_time list_basis page_size page_token)).map Prod.fst) ∧
    (page_token = none → "page_token" ∉ (effectiveParams
      (SearchDetections.search_detections_params rule_id alert_state start_time
        end_time list_basis page_size page_token)).map Prod.fst) ∧
    ("rule_id" ∈ (effectiveParams
      (SearchDetections.search_detections_params rule_id alert_state start_time
        end_time list_basis page_size page_token)).map Prod.fst) ∧
    (limit = none → "limit" ∉ (effectiveParams
      (UdmSearch.udm_search_params query qstart qend limit)).map Prod.fst) ∧
    ("query" ∈ (effectiveParams
      (UdmSearch.udm_search_params query qstart qend limit)).map Prod.fst) := by
  refine ⟨?_, ?_, ?_, ?_, ?_, ?_, ?_, ?_, ?_⟩
  · intro h
    subst h
    rw [mem_effective_keys]
    rintro ⟨v, hv⟩
    simp [SearchDetections.search_detections_params] at hv
  · intro h
    subst h
    rw [mem_effective_keys]
    rintro ⟨v, hv⟩
    simp [SearchDetections.search_detections_params] at hv
  · intro h
    subst h
    rw [mem_effective_keys]
    rintro ⟨v, hv⟩
    simp [SearchDetections.search_detections_params] at hv
  · intro h
    subst h
    rw [mem_effective_keys]
    rintro ⟨v, hv⟩
    simp [SearchDetections.search_detections_params] at hv
  · intro h
    subst h
    rw [mem_effective_keys]
    rintro ⟨v, hv⟩
    simp [SearchDetections.search_detections_params] at hv
  · intro h
    subst h
    rw [mem_effective_keys]
    rintro ⟨v, hv⟩
    simp [SearchDetections.search_detections_params] at hv
  · rw [mem_effective_keys]
    exact ⟨PVal.str rule_id, by simp [SearchDetections.search_detections_params]⟩
  · intro h
    subst h
    rw [mem_effective_keys]
    rintro ⟨v, hv⟩
    simp [UdmSearch.udm_search_params] at hv
  · rw [mem_effective_keys]
    exact ⟨PVal.str query, by simp [UdmSearch.udm_search_params]⟩

/-- C7 witness: the detections mapping with every optional omitted encodes
to the single key `rule_id`, and the UDM mapping without `limit` encodes to
the three always-present keys. -/
theorem C7_omitted_params_witness :
    "alert_state" ∉ (effectiveParams
      (SearchDetections.search_detections_params "r" none none none none none
        none)).map Prod.fst ∧
    "limit" ∉ (effectiveParams
      (UdmSearch.udm_search_params "q" "s" "e" none)).map Prod.fst ∧
    (effectiveParams (SearchDetections.search_detections_params "r" none none
      none none none none)).map Prod.fst = ["rule_id"] ∧
    (effectiveParams (UdmSearch.udm_search_params "q" "s" "e" none)).map
      Prod.fst = ["query", "time_range.start_time", "time_range.end_time"] := by
  refine ⟨?_, ?_, by decide, by decide⟩
  · exact (C7_omitted_params "r" none none none none none none "q" "s" "e"
      none).1 rfl
  · exact (C7_omitted_params "r" none none none none none none "q" "s" "e"
      none).2.2.2.2.2.2.2.1 rfl

/-- C10 witness: a 429 response raises the HTTP error on the first
occurrence with the body emitted, and a 200 response returns the pair of
fields. -/
theorem C10_detections_single_shot_witness :
    (SearchDetections.search_detections
      ({ status := 429, text := "limited", detections := none,
         nextPageToken := none } : SearchDetections.DetResp Nat)).1 =
      Except.error (CheckErr.httpError 429) ∧
    numSleeps (SearchDetections.search_detections
      ({ status := 429, text := "limited", detections := none,
         nextPageToken := none } : SearchDetections.DetResp Nat)).2 = 0 ∧
    (SearchDetections.search_detections
      ({ status := 200, text := "ok", detections := some [5],
         nextPageToken := some "tok" } : SearchDetections.DetResp Nat)).1 =
      Except.ok (some [5], some "tok") := by
  have h1 := (C10_detections_single_shot
    ({ status := 429, text := "limited", detections := none,
       nextPageToken := none } : SearchDetections.DetResp Nat)).2.2.1 (by decide)
  have h2 := (C10_detections_single_shot
    ({ status := 429, text := "limited", detections := none,
       nextPageToken := none } : SearchDetections.DetResp Nat)).2.1
  have h3 := (C10_detections_single_shot
    ({ status := 200, text := "ok", detections := some [5],
       nextPageToken := some "tok" } : SearchDetections.DetResp Nat)).2.2.2 (by decide)
  exact ⟨h1.1, h2, h3⟩

end HealthChecks
